import Mathlib

/-!
Verification of the rn-tooltip overlay component (src/src/Triangle.tsx).

The file embeds the Tooltip component's pure logic in Lean:
geometry records, the computed tooltip / pointer / highlight styles,
and the visibility state machine with its lifecycle callbacks.

The placement engine (`getTooltipCoordinate`), the screen constants and the
platform flag (`helpers`) are external collaborators of the code under
analysis; their outputs (`x`, `y`, `ScreenWidth`, `ScreenHeight`, `isIOS`)
enter the embedding as parameters. Coordinates are rationals, matching the
exact arithmetic the code performs on JS numbers at the scales involved.
-/

namespace RNTooltip

/-- Anchor geometry stored in `renderedElementLayout` state
(lines 88-93): position and size of the anchor element. -/
structure AnchorGeometry where
  xOffset : ℚ
  yOffset : ℚ
  elementWidth : ℚ
  elementHeight : ℚ
deriving DecidableEq, Repr

/-- The initial layout state: all zeros (lines 88-93). -/
def initialLayout : AnchorGeometry :=
  { xOffset := 0, yOffset := 0, elementWidth := 0, elementHeight := 0 }

/-- A `number | string` dimension, as in the `height`/`width` props
(lines 51-52): either a fixed numeric value or a proportional string. -/
inductive Dimension where
  | num (value : ℚ)
  | pct (value : String)
deriving DecidableEq, Repr

/-- `typeof d === "number"` on a `number | string` value. -/
def Dimension.isNumber : Dimension → Bool
  | .num _ => true
  | .pct _ => false

/-- The subset of `ViewStyle` fields the component reads or writes.
`none` models an absent (or `undefined`) property. -/
structure ViewStyle where
  top : Option ℚ
  bottom : Option ℚ
  left : Option ℚ
  right : Option ℚ
  width : Option Dimension
  height : Option Dimension
  backgroundColor : Option String
  borderRadius : Option ℚ
  padding : Option ℚ
deriving DecidableEq, Repr

/-- The empty style object `{}`, the default for `containerStyle`
(line 73). -/
def emptyStyle : ViewStyle :=
  { top := none, bottom := none, left := none, right := none,
    width := none, height := none, backgroundColor := none,
    borderRadius := none, padding := none }

/-- A present property of the second object wins over the first:
the semantics of one field under the object spread `{...a, ...b}`. -/
def overrideField {α : Type} (base override : Option α) : Option α :=
  match override with
  | some v => some v
  | none => base

/-- The object spread `{...base, ...override}`, field by field:
every property present on `override` replaces the one on `base`. -/
def spreadStyle (base override : ViewStyle) : ViewStyle :=
  { top := overrideField base.top override.top,
    bottom := overrideField base.bottom override.bottom,
    left := overrideField base.left override.left,
    right := overrideField base.right override.right,
    width := overrideField base.width override.width,
    height := overrideField base.height override.height,
    backgroundColor := overrideField base.backgroundColor override.backgroundColor,
    borderRadius := overrideField base.borderRadius override.borderRadius,
    padding := overrideField base.padding override.padding }

/-- The object literal of `tooltipStyle` before the `...containerStyle`
spread (lines 174-187): `left`/`right` from the engine `x` per layout
direction, the requested `width`/`height`, colors and decoration.
(`position`, `display`, `alignItems`, `justifyContent` and `flex` are
constants the claims never mention and are omitted from the record.) -/
def tooltipBaseStyle (isRTL : Bool) (x : ℚ) (width height : Dimension)
    (backgroundColor : String) : ViewStyle :=
  { top := none,
    bottom := none,
    left := if isRTL then none else some x,
    right := if isRTL then some x else none,
    width := some width,
    height := some height,
    backgroundColor := some backgroundColor,
    borderRadius := some 10,
    padding := some 10 }

/-- The `if / else if / else` chain of lines 192-198, as a case split on
the `typeof height` test and `pastMiddleLine`: a proportional height past
the middle line assigns `bottom := screenHeight - y`, a numeric height past
the middle line assigns `top := y - height`, and every remaining case
assigns `top := y`. Each assignment mutates `tooltipStyle` after the
`containerStyle` spread has been applied. -/
def applyVerticalPlacement (height : Dimension) (pastMiddleLine : Bool)
    (y screenHeight : ℚ) (tooltipStyle : ViewStyle) : ViewStyle :=
  match height with
  | .pct _ =>
    if pastMiddleLine then
      { tooltipStyle with bottom := some (screenHeight - y) }
    else
      { tooltipStyle with top := some y }
  | .num h =>
    if pastMiddleLine then
      { tooltipStyle with top := some (y - h) }
    else
      { tooltipStyle with top := some y }

/-- `getTooltipStyle` (lines 162-201), with the engine output `(x, y)` and
the ambient constants as parameters: build the base literal, spread
`containerStyle` over it, derive `pastMiddleLine` from
`renderedElementLayout.yOffset > y` (line 191), then assign `bottom` or
`top` (lines 192-198). Returns `(tooltipStyle, pastMiddleLine)` as the
code does (line 200). -/
def getTooltipStyle (isRTL : Bool) (x y : ℚ) (width height : Dimension)
    (backgroundColor : String) (containerStyle : ViewStyle)
    (layout : AnchorGeometry) (screenHeight : ℚ) : ViewStyle × Bool :=
  let tooltipStyle :=
    spreadStyle (tooltipBaseStyle isRTL x width height backgroundColor)
      containerStyle
  let pastMiddleLine : Bool := decide (layout.yOffset > y)
  (applyVerticalPlacement height pastMiddleLine y screenHeight tooltipStyle,
    pastMiddleLine)

/-- The positioning style of the pointer's wrapping view in `renderPointer`
(lines 211-224): `top` per `pastMiddleLine`, and the anchor-midpoint
horizontal coordinate assigned to `left` or `right` per layout direction. -/
def pointerContainerStyle (isRTL : Bool) (layout : AnchorGeometry)
    (pastMiddleLine : Bool) : ViewStyle :=
  { emptyStyle with
    top := some (if pastMiddleLine then layout.yOffset - 13
      else layout.yOffset + layout.elementHeight - 2),
    left := if isRTL then none
      else some (layout.xOffset + layout.elementWidth / 2 - 7.5),
    right := if isRTL then some (layout.xOffset + layout.elementWidth / 2 - 7.5)
      else none }

/-- The highlight layer's style in `renderContent` (lines 250-260):
positioned exactly over the anchor's last measured geometry, with
`left`/`right` per layout direction. -/
def highlightStyle (isRTL : Bool) (layout : AnchorGeometry)
    (highlightColor : String) : ViewStyle :=
  { top := some layout.yOffset,
    bottom := none,
    left := if isRTL then none else some layout.xOffset,
    right := if isRTL then some layout.xOffset else none,
    width := some (.num layout.elementWidth),
    height := some (.num layout.elementHeight),
    backgroundColor := some highlightColor,
    borderRadius := none,
    padding := none }

/-- The result shape the measurement collaborator passes to the
`measureInWindow` callback (lines 102-111). `none` at the call site models
an unavailable ref (`!renderedElementRef || !renderedElementRef.current`,
lines 98-100). -/
structure MeasureResult where
  pageOffsetX : ℚ
  pageOffsetY : ℚ
  width : ℚ
  height : ℚ
deriving DecidableEq, Repr

/-- `getElementPosition` (lines 97-112): when the ref is unavailable the
function returns early and the stored layout is untouched; otherwise the
measured window rectangle replaces it. Total: no error path exists. -/
def getElementPosition (ref : Option MeasureResult)
    (layout : AnchorGeometry) : AnchorGeometry :=
  match ref with
  | none => layout
  | some m =>
    { xOffset := m.pageOffsetX, yOffset := m.pageOffsetY,
      elementWidth := m.width, elementHeight := m.height }

/-- The overlay controller's mutable state plus instrumentation counters
for the lifecycle callbacks: `openCalls` / `closeCalls` count invocations
of `onOpen` / `onClose`, `measureRequests` counts calls to
`getElementPosition`. -/
structure ControllerState where
  isVisible : Bool
  layout : AnchorGeometry
  openCalls : ℕ
  closeCalls : ℕ
  measureRequests : ℕ
deriving DecidableEq, Repr

/-- The controller's initial state: hidden (line 86), zero layout
(lines 88-93), no callback yet invoked. -/
def initialState : ControllerState :=
  { isVisible := false, layout := initialLayout,
    openCalls := 0, closeCalls := 0, measureRequests := 0 }

/-- `toggleTooltip` (lines 122-130): request a re-measurement, invoke
`onClose` directly when currently visible on a non-iOS platform, and flip
the visibility flag. All three effects read the pre-call state, as the
closure over `isVisible` does in the code. -/
def toggleTooltip (isIOS : Bool) (ref : Option MeasureResult)
    (s : ControllerState) : ControllerState :=
  { isVisible := !s.isVisible,
    layout := getElementPosition ref s.layout,
    openCalls := s.openCalls,
    closeCalls := s.closeCalls + (if s.isVisible && !isIOS then 1 else 0),
    measureRequests := s.measureRequests + 1 }

/-- Modelled from the spec: the Modal primitive is an external collaborator
(its wiring is lines 273-280: `onShow` invokes `onOpen`, `onDismiss`
invokes `onClose`). Per the spec, `onShow` fires when the modal becomes
visible, and the modal-dismiss event fires on dismissal only on the
platform family where it is reliable (iOS); on the other family the
toggle itself already invoked `onClose`. -/
def modalEvents (isIOS wasVisible : Bool) (s : ControllerState) :
    ControllerState :=
  if !wasVisible && s.isVisible then
    { s with openCalls := s.openCalls + 1 }
  else if wasVisible && !s.isVisible && isIOS then
    { s with closeCalls := s.closeCalls + 1 }
  else s

/-- One user press on the anchor or on the dismiss overlay
(lines 140, 283): `toggleTooltip` runs, then the Modal reacts to the new
value of its `visible` prop. -/
def pressToggle (isIOS : Bool) (ref : Option MeasureResult)
    (s : ControllerState) : ControllerState :=
  modalEvents isIOS s.isVisible (toggleTooltip isIOS ref s)

/-- The programmatic close path: `onRequestClose` is wired directly to
`onClose` (line 279), so a close request invokes the callback but changes
no state of the controller — in particular the visibility flag keeps its
value. -/
def requestClose (s : ControllerState) : ControllerState :=
  { s with closeCalls := s.closeCalls + 1 }

/-- The mount effect (lines 114-120) schedules callbacks via `setTimeout`:
the effect body creates exactly this list of timers, a single measurement
delayed by 500ms. -/
def mountEffectTimers : List ℕ := [500]

/-- The effect cleanup (lines 117-119): when the component is torn down
before the delay elapses, `clearTimeout` cancels the scheduled timer;
otherwise the timers remain pending. -/
def cleanupRun (tornDownBeforeDelay : Bool) (timers : List ℕ) : List ℕ :=
  if tornDownBeforeDelay then [] else timers

/-- Firing every still-pending timer: each one runs `getElementPosition`
against the current layout state. -/
def firePending (ref : Option MeasureResult) (timers : List ℕ)
    (layout : AnchorGeometry) : AnchorGeometry :=
  timers.foldl (fun l _ => getElementPosition ref l) layout

/-! Helper lemmas about the vertical-placement assignment. -/

lemma applyVerticalPlacement_left (height : Dimension) (p : Bool)
    (y sh : ℚ) (t : ViewStyle) :
    (applyVerticalPlacement height p y sh t).left = t.left := by
  cases height <;> cases p <;> rfl

lemma applyVerticalPlacement_right (height : Dimension) (p : Bool)
    (y sh : ℚ) (t : ViewStyle) :
    (applyVerticalPlacement height p y sh t).right = t.right := by
  cases height <;> cases p <;> rfl

lemma applyVerticalPlacement_width (height : Dimension) (p : Bool)
    (y sh : ℚ) (t : ViewStyle) :
    (applyVerticalPlacement height p y sh t).width = t.width := by
  cases height <;> cases p <;> rfl

lemma applyVerticalPlacement_height (height : Dimension) (p : Bool)
    (y sh : ℚ) (t : ViewStyle) :
    (applyVerticalPlacement height p y sh t).height = t.height := by
  cases height <;> cases p <;> rfl

lemma applyVerticalPlacement_backgroundColor (height : Dimension) (p : Bool)
    (y sh : ℚ) (t : ViewStyle) :
    (applyVerticalPlacement height p y sh t).backgroundColor =
      t.backgroundColor := by
  cases height <;> cases p <;> rfl

lemma applyVerticalPlacement_borderRadius (height : Dimension) (p : Bool)
    (y sh : ℚ) (t : ViewStyle) :
    (applyVerticalPlacement height p y sh t).borderRadius =
      t.borderRadius := by
  cases height <;> cases p <;> rfl

lemma applyVerticalPlacement_padding (height : Dimension) (p : Bool)
    (y sh : ℚ) (t : ViewStyle) :
    (applyVerticalPlacement height p y sh t).padding = t.padding := by
  cases height <;> cases p <;> rfl

lemma applyVerticalPlacement_top_false (height : Dimension)
    (y sh : ℚ) (t : ViewStyle) :
    (applyVerticalPlacement height false y sh t).top = some y := by
  cases height <;> rfl

lemma applyVerticalPlacement_bottom_num (h : ℚ) (p : Bool)
    (y sh : ℚ) (t : ViewStyle) :
    (applyVerticalPlacement (.num h) p y sh t).bottom = t.bottom := by
  cases p <;> rfl

lemma applyVerticalPlacement_bottom_false (height : Dimension)
    (y sh : ℚ) (t : ViewStyle) :
    (applyVerticalPlacement height false y sh t).bottom = t.bottom := by
  cases height <;> rfl

lemma applyVerticalPlacement_top_pct (p : String)
    (y sh : ℚ) (t : ViewStyle) :
    (applyVerticalPlacement (.pct p) true y sh t).top = t.top := rfl

lemma getTooltipStyle_snd (isRTL : Bool) (x y : ℚ) (w h : Dimension)
    (bg : String) (cs : ViewStyle) (layout : AnchorGeometry) (sh : ℚ) :
    (getTooltipStyle isRTL x y w h bg cs layout sh).2 =
      decide (layout.yOffset > y) := rfl

/-- C2: `toggleTooltip` invokes `onClose` directly exactly when the
pre-call state is visible and the platform is not iOS — the guard of
line 125 reads the state before the visibility flip — and in particular
a toggle from the hidden state never invokes `onClose`. -/
theorem toggle_direct_close_guard (isIOS : Bool) (ref : Option MeasureResult)
    (s : ControllerState) :
    (toggleTooltip isIOS ref s).closeCalls =
      s.closeCalls + (if s.isVisible && !isIOS then 1 else 0) ∧
    (toggleTooltip isIOS ref { s with isVisible := false }).closeCalls =
      s.closeCalls :=
  ⟨rfl, rfl⟩

/-- C3: the flip flag returned by `getTooltipStyle` is true exactly when
the anchor's `yOffset` is strictly greater than the engine-returned `y`
(line 191). -/
theorem pastMiddleLine_iff_anchor_below_engine_y (isRTL : Bool) (x y : ℚ)
    (w h : Dimension) (bg : String) (cs : ViewStyle)
    (layout : AnchorGeometry) (sh : ℚ) :
    (getTooltipStyle isRTL x y w h bg cs layout sh).2 = true ↔
      layout.yOffset > y := by
  rw [getTooltipStyle_snd]
  exact decide_eq_true_iff

/-- C5: under right-to-left direction the computed horizontal coordinate is
assigned to `right` and `left` is unset, under left-to-right it is assigned
to `left` and `right` is unset, with the same magnitude either way — for
the tooltip box base style (lines 176-177), the pointer container
(lines 218-223) and the anchor highlight layer (lines 254-255). -/
theorem rtl_mirrors_horizontal_coordinate (x : ℚ) (w h : Dimension)
    (bg hc : String) (layout : AnchorGeometry) (p : Bool) :
    ((tooltipBaseStyle true x w h bg).left = none ∧
     (tooltipBaseStyle true x w h bg).right = some x ∧
     (tooltipBaseStyle false x w h bg).left = some x ∧
     (tooltipBaseStyle false x w h bg).right = none) ∧
    ((pointerContainerStyle true layout p).left = none ∧
     (pointerContainerStyle true layout p).right =
       some (layout.xOffset + layout.elementWidth / 2 - 7.5) ∧
     (pointerContainerStyle false layout p).left =
       some (layout.xOffset + layout.elementWidth / 2 - 7.5) ∧
     (pointerContainerStyle false layout p).right = none) ∧
    ((highlightStyle true layout hc).left = none ∧
     (highlightStyle true layout hc).right = some layout.xOffset ∧
     (highlightStyle false layout hc).left = some layout.xOffset ∧
     (highlightStyle false layout hc).right = none) :=
  ⟨⟨rfl, rfl, rfl, rfl⟩, ⟨rfl, rfl, rfl, rfl⟩, ⟨rfl, rfl, rfl, rfl⟩⟩

/-- C6: when the anchor ref is unavailable, `getElementPosition` is a
silent no-op — the stored geometry is returned unchanged, and the function
is total so no error is surfaced. -/
theorem measurement_noop_when_ref_unavailable (layout : AnchorGeometry) :
    getElementPosition none layout = layout := rfl

/-- C7: every invocation of `toggleTooltip` issues exactly one measurement
request (line 123) and routes the stored layout through
`getElementPosition`, regardless of whether the toggle opens or closes. -/
theorem toggle_always_requests_measurement (isIOS : Bool)
    (ref : Option MeasureResult) (s : ControllerState) :
    (toggleTooltip isIOS ref s).measureRequests = s.measureRequests + 1 ∧
    (toggleTooltip isIOS ref s).layout = getElementPosition ref s.layout :=
  ⟨rfl, rfl⟩

/-- C8: the mount effect schedules exactly one measurement timer, with a
500ms delay, and running the cleanup before the delay elapses cancels it,
so no pending timer remains and the layout state is never updated by the
mount-scheduled measurement after disposal. -/
theorem mount_schedules_single_cancellable_measurement :
    mountEffectTimers = [500] ∧
    mountEffectTimers.length = 1 ∧
    cleanupRun true mountEffectTimers = [] ∧
    ∀ (ref : Option MeasureResult) (layout : AnchorGeometry),
      firePending ref (cleanupRun true mountEffectTimers) layout = layout :=
  ⟨rfl, rfl, rfl, fun _ _ => rfl⟩

/-- C10: the visibility toggle is an involution — one application flips the
flag to its negation, two applications restore the original value. -/
theorem toggle_involution_on_visibility (isIOS : Bool)
    (r1 r2 : Option MeasureResult) (s : ControllerState) :
    (toggleTooltip isIOS r1 s).isVisible = !s.isVisible ∧
    (toggleTooltip isIOS r2 (toggleTooltip isIOS r1 s)).isVisible =
      s.isVisible :=
  ⟨rfl, Bool.not_not s.isVisible⟩

/-- C1 counterexample: a concrete hidden→visible→hidden cycle on the
non-iOS platform that uses the programmatic close path once — press to
open, hardware-back request, press to dismiss. `onRequestClose` invokes
`onClose` without flipping the visibility flag (line 279), so the cycle
ends hidden having invoked `onOpen` once but `onClose` twice, refuting
"onClose exactly once with no spurious extra calls". -/
theorem backpress_cycle_double_close :
    (pressToggle false none (requestClose
      (pressToggle false none initialState))).isVisible = false ∧
    (pressToggle false none (requestClose
      (pressToggle false none initialState))).openCalls = 1 ∧
    (pressToggle false none (requestClose
      (pressToggle false none initialState))).closeCalls = 2 := by
  refine ⟨rfl, rfl, rfl⟩

/-- C1 amended: a full hidden→visible→hidden cycle driven by the
press-toggle alone invokes `onOpen` exactly once and `onClose` exactly
once on both platform families; the programmatic close path
(`onRequestClose`) invokes `onClose` once per request but leaves the
visibility flag unchanged, so each programmatic close inside a cycle adds
one further `onClose` invocation. -/
theorem full_cycle_callbacks_once (isIOS : Bool)
    (r1 r2 : Option MeasureResult) (s : ControllerState)
    (h : s.isVisible = false) :
    ((pressToggle isIOS r2 (pressToggle isIOS r1 s)).openCalls =
        s.openCalls + 1 ∧
      (pressToggle isIOS r2 (pressToggle isIOS r1 s)).closeCalls =
        s.closeCalls + 1 ∧
      (pressToggle isIOS r2 (pressToggle isIOS r1 s)).isVisible = false) ∧
    ((requestClose s).isVisible = s.isVisible ∧
      (requestClose s).closeCalls = s.closeCalls + 1) := by
  cases isIOS <;>
    simp [pressToggle, toggleTooltip, modalEvents, requestClose, h]

/-- C1 witness: the amended cycle property at the initial state on iOS. -/
theorem full_cycle_callbacks_once_witness :
    initialState.isVisible = false ∧
    (((pressToggle true none (pressToggle true none initialState)).openCalls =
        initialState.openCalls + 1 ∧
      (pressToggle true none (pressToggle true none initialState)).closeCalls =
        initialState.closeCalls + 1 ∧
      (pressToggle true none (pressToggle true none initialState)).isVisible =
        false) ∧
    ((requestClose initialState).isVisible = initialState.isVisible ∧
      (requestClose initialState).closeCalls =
        initialState.closeCalls + 1)) :=
  ⟨rfl, full_cycle_callbacks_once true none none initialState rfl⟩

/-- C4 counterexample: with anchor `yOffset = 100` and engine result
`y = 50` the flip flag is set, yet a fixed height of 40 yields
`top = y - height = 10`, not `anchor.yOffset - popoverHeight = 60`; and a
proportional height on a screen of height 800 yields
`bottom = screenHeight - y = 750`, not `viewport.height - anchor.yOffset
= 700`. The code anchors both edges to the engine-returned `y`
(lines 193, 195), not to `anchor.yOffset`. -/
theorem vertical_anchoring_not_anchor_offset_cex :
    (getTooltipStyle false 0 50 (.num 150) (.num 40) "w" emptyStyle
      ⟨0, 100, 0, 0⟩ 800).2 = true ∧
    (getTooltipStyle false 0 50 (.num 150) (.num 40) "w" emptyStyle
      ⟨0, 100, 0, 0⟩ 800).1.top = some 10 ∧
    (getTooltipStyle false 0 50 (.num 150) (.num 40) "w" emptyStyle
      ⟨0, 100, 0, 0⟩ 800).1.top ≠ some (100 - 40) ∧
    (getTooltipStyle false 0 50 (.num 150) (.pct "80%") "w" emptyStyle
      ⟨0, 100, 0, 0⟩ 800).1.bottom = some 750 ∧
    (getTooltipStyle false 0 50 (.num 150) (.pct "80%") "w" emptyStyle
      ⟨0, 100, 0, 0⟩ 800).1.bottom ≠ some (800 - 100) := by
  have h : (100 : ℚ) > 50 := by norm_num
  refine ⟨?_, ?_, ?_, ?_, ?_⟩ <;>
    simp [getTooltipStyle, applyVerticalPlacement, spreadStyle,
      tooltipBaseStyle, overrideField, emptyStyle, h] <;>
    norm_num

/-- C4 amended: whenever `pastMiddleLine` is true and the requested height
is a fixed numeric value, the computed style anchors the top edge at
`y - popoverHeight` for the engine-returned `y`; whenever `pastMiddleLine`
is true and the height is proportional, the style anchors the bottom edge
at `screenHeight - y`; whenever `pastMiddleLine` is false, the style sets
the top edge to the engine-returned `y`. -/
theorem vertical_anchoring_uses_engine_y (isRTL : Bool) (x y : ℚ)
    (w : Dimension) (bg : String) (cs : ViewStyle)
    (layout : AnchorGeometry) (sh : ℚ) :
    (∀ h : ℚ, layout.yOffset > y →
      (getTooltipStyle isRTL x y w (.num h) bg cs layout sh).1.top =
        some (y - h)) ∧
    (∀ p : String, layout.yOffset > y →
      (getTooltipStyle isRTL x y w (.pct p) bg cs layout sh).1.bottom =
        some (sh - y)) ∧
    (∀ hd : Dimension, ¬layout.yOffset > y →
      (getTooltipStyle isRTL x y w hd bg cs layout sh).1.top = some y) := by
  refine ⟨fun h hp => ?_, fun p hp => ?_, fun hd hp => ?_⟩
  · simp [getTooltipStyle, applyVerticalPlacement, hp]
  · simp [getTooltipStyle, applyVerticalPlacement, hp]
  · have hd' : decide (layout.yOffset > y) = false := decide_eq_false hp
    simp only [getTooltipStyle, hd']
    exact applyVerticalPlacement_top_false hd y sh _

/-- C4 witness: the amended anchoring rules at concrete inputs — a flipped
placement with `yOffset = 100 > y = 50` and an unflipped one with
`yOffset = 0`. -/
theorem vertical_anchoring_uses_engine_y_witness :
    ((100 : ℚ) > 50) ∧
    (getTooltipStyle false 0 50 (.num 150) (.num 40) "w" emptyStyle
      ⟨0, 100, 0, 0⟩ 800).1.top = some (50 - 40) ∧
    (getTooltipStyle false 0 50 (.num 150) (.pct "80%") "w" emptyStyle
      ⟨0, 100, 0, 0⟩ 800).1.bottom = some (800 - 50) ∧
    (¬(0 : ℚ) > 50) ∧
    (getTooltipStyle false 0 50 (.num 150) (.num 40) "w" emptyStyle
      ⟨0, 0, 0, 0⟩ 800).1.top = some 50 :=
  ⟨by norm_num,
   (vertical_anchoring_uses_engine_y false 0 50 (.num 150) "w" emptyStyle
     ⟨0, 100, 0, 0⟩ 800).1 40 (by norm_num),
   (vertical_anchoring_uses_engine_y false 0 50 (.num 150) "w" emptyStyle
     ⟨0, 100, 0, 0⟩ 800).2.1 "80%" (by norm_num),
   by norm_num,
   (vertical_anchoring_uses_engine_y false 0 50 (.num 150) "w" emptyStyle
     ⟨0, 0, 0, 0⟩ 800).2.2 (.num 40) (by norm_num)⟩

/-- A caller override that sets the positional field `top`. -/
def overrideTopStyle : ViewStyle := { emptyStyle with top := some 999 }

/-- A caller override that sets every field the component touches,
the positional ones included. -/
def overrideSample : ViewStyle :=
  { top := some 999, bottom := some 998, left := some 1, right := some 2,
    width := some (.num 3), height := some (.num 4),
    backgroundColor := some "red", borderRadius := some 6,
    padding := some 7 }

/-- C9 counterexample: a `containerStyle` override setting `top := 999`
does not win — with `pastMiddleLine` false the placement branch assigns
`top := y` (line 197) after the spread of line 188, so the computed value
5 overwrites the caller's 999, refuting "the caller's override wins for
every style field it sets (including positional fields such as top and
bottom)". -/
theorem container_top_override_overwritten_cex :
    overrideTopStyle.top = some 999 ∧
    (getTooltipStyle false 0 5 (.num 150) (.num 40) "w" overrideTopStyle
      ⟨0, 0, 0, 0⟩ 800).2 = false ∧
    (getTooltipStyle false 0 5 (.num 150) (.num 40) "w" overrideTopStyle
      ⟨0, 0, 0, 0⟩ 800).1.top = some 5 ∧
    some (5 : ℚ) ≠ some (999 : ℚ) := by
  refine ⟨rfl, rfl, rfl, by norm_num⟩

/-- C9 amended: the `containerStyle` override is spread over the computed
base style and wins for every field it sets except the positional field
the placement branch assigns after the merge. Non-positional fields —
left, right, width, height, backgroundColor, borderRadius, padding —
survive in every branch; `bottom` survives in the three top-assigning
branches (numeric height, and any height with `pastMiddleLine` false) and
`top` survives in the flipped-proportional branch; the assigned field
itself takes the computed value whatever the override says: `top = y`
with `pastMiddleLine` false, `top = y - height` when flipped with numeric
height, `bottom = screenHeight - y` when flipped with proportional
height. -/
theorem container_override_wins_except_assigned_position (isRTL : Bool)
    (x y : ℚ) (w : Dimension) (bg : String) (cs : ViewStyle)
    (layout : AnchorGeometry) (sh : ℚ) :
    (∀ (hd : Dimension) (v : ℚ), cs.left = some v →
      (getTooltipStyle isRTL x y w hd bg cs layout sh).1.left = some v) ∧
    (∀ (hd : Dimension) (v : ℚ), cs.right = some v →
      (getTooltipStyle isRTL x y w hd bg cs layout sh).1.right = some v) ∧
    (∀ (hd v : Dimension), cs.width = some v →
      (getTooltipStyle isRTL x y w hd bg cs layout sh).1.width = some v) ∧
    (∀ (hd v : Dimension), cs.height = some v →
      (getTooltipStyle isRTL x y w hd bg cs layout sh).1.height = some v) ∧
    (∀ (hd : Dimension) (v : String), cs.backgroundColor = some v →
      (getTooltipStyle isRTL x y w hd bg cs layout sh).1.backgroundColor =
        some v) ∧
    (∀ (hd : Dimension) (v : ℚ), cs.borderRadius = some v →
      (getTooltipStyle isRTL x y w hd bg cs layout sh).1.borderRadius =
        some v) ∧
    (∀ (hd : Dimension) (v : ℚ), cs.padding = some v →
      (getTooltipStyle isRTL x y w hd bg cs layout sh).1.padding = some v) ∧
    (∀ (hq v : ℚ), cs.bottom = some v →
      (getTooltipStyle isRTL x y w (.num hq) bg cs layout sh).1.bottom =
        some v) ∧
    (∀ (hd : Dimension) (v : ℚ), ¬layout.yOffset > y → cs.bottom = some v →
      (getTooltipStyle isRTL x y w hd bg cs layout sh).1.bottom = some v) ∧
    (∀ (p : String) (v : ℚ), layout.yOffset > y → cs.top = some v →
      (getTooltipStyle isRTL x y w (.pct p) bg cs layout sh).1.top =
        some v) ∧
    (∀ hd : Dimension, ¬layout.yOffset > y →
      (getTooltipStyle isRTL x y w hd bg cs layout sh).1.top = some y) ∧
    (∀ hq : ℚ, layout.yOffset > y →
      (getTooltipStyle isRTL x y w (.num hq) bg cs layout sh).1.top =
        some (y - hq)) ∧
    (∀ p : String, layout.yOffset > y →
      (getTooltipStyle isRTL x y w (.pct p) bg cs layout sh).1.bottom =
        some (sh - y)) := by
  refine ⟨fun hd v hv => ?_, fun hd v hv => ?_, fun hd v hv => ?_,
    fun hd v hv => ?_, fun hd v hv => ?_, fun hd v hv => ?_,
    fun hd v hv => ?_, fun hq v hv => ?_, fun hd v hnp hv => ?_,
    fun p v hp hv => ?_, fun hd hnp => ?_, fun hq hp => ?_, fun p hp => ?_⟩
  · simp [getTooltipStyle, applyVerticalPlacement_left, spreadStyle,
      overrideField, hv]
  · simp [getTooltipStyle, applyVerticalPlacement_right, spreadStyle,
      overrideField, hv]
  · simp [getTooltipStyle, applyVerticalPlacement_width, spreadStyle,
      overrideField, hv]
  · simp [getTooltipStyle, applyVerticalPlacement_height, spreadStyle,
      overrideField, hv]
  · simp [getTooltipStyle, applyVerticalPlacement_backgroundColor,
      spreadStyle, overrideField, hv]
  · simp [getTooltipStyle, applyVerticalPlacement_borderRadius, spreadStyle,
      overrideField, hv]
  · simp [getTooltipStyle, applyVerticalPlacement_padding, spreadStyle,
      overrideField, hv]
  · simp [getTooltipStyle, applyVerticalPlacement_bottom_num, spreadStyle,
      overrideField, hv]
  · have hd' : decide (layout.yOffset > y) = false := decide_eq_false hnp
    simp only [getTooltipStyle, hd']
    rw [applyVerticalPlacement_bottom_false]
    simp [spreadStyle, overrideField, hv]
  · have hd' : decide (layout.yOffset > y) = true := decide_eq_true hp
    simp only [getTooltipStyle, hd']
    rw [applyVerticalPlacement_top_pct]
    simp [spreadStyle, overrideField, hv]
  · have hd' : decide (layout.yOffset > y) = false := decide_eq_false hnp
    simp only [getTooltipStyle, hd']
    exact applyVerticalPlacement_top_false hd y sh _
  · simp [getTooltipStyle, applyVerticalPlacement, hp]
  · simp [getTooltipStyle, applyVerticalPlacement, hp]

/-- C9 witness: the amended merge behavior at concrete overrides setting
every field, across all three placement branches — every non-positional
override survives, `bottom` survives where `top` is assigned and `top`
survives in the flipped-proportional branch, and the assigned field takes
the computed value (5, 50 - 40 and 800 - 50 respectively) instead of the
overridden 999 / 998. -/
theorem container_override_wins_witness :
    (getTooltipStyle false 0 5 (.num 150) (.num 40) "w" overrideSample
      ⟨0, 0, 0, 0⟩ 800).1.left = some 1 ∧
    (getTooltipStyle false 0 5 (.num 150) (.num 40) "w" overrideSample
      ⟨0, 0, 0, 0⟩ 800).1.right = some 2 ∧
    (getTooltipStyle false 0 5 (.num 150) (.num 40) "w" overrideSample
      ⟨0, 0, 0, 0⟩ 800).1.width = some (.num 3) ∧
    (getTooltipStyle false 0 5 (.num 150) (.num 40) "w" overrideSample
      ⟨0, 0, 0, 0⟩ 800).1.height = some (.num 4) ∧
    (getTooltipStyle false 0 5 (.num 150) (.num 40) "w" overrideSample
      ⟨0, 0, 0, 0⟩ 800).1.backgroundColor = some "red" ∧
    (getTooltipStyle false 0 5 (.num 150) (.num 40) "w" overrideSample
      ⟨0, 0, 0, 0⟩ 800).1.borderRadius = some 6 ∧
    (getTooltipStyle false 0 5 (.num 150) (.num 40) "w" overrideSample
      ⟨0, 0, 0, 0⟩ 800).1.padding = some 7 ∧
    (getTooltipStyle false 0 5 (.num 150) (.num 40) "w" overrideSample
      ⟨0, 0, 0, 0⟩ 800).1.bottom = some 998 ∧
    (¬(0 : ℚ) > 5) ∧
    (getTooltipStyle false 0 5 (.num 150) (.pct "80%") "w" overrideSample
      ⟨0, 0, 0, 0⟩ 800).1.bottom = some 998 ∧
    ((100 : ℚ) > 50) ∧
    (getTooltipStyle false 0 50 (.num 150) (.pct "80%") "w" overrideSample
      ⟨0, 100, 0, 0⟩ 800).1.top = some 999 ∧
    (getTooltipStyle false 0 5 (.num 150) (.num 40) "w" overrideSample
      ⟨0, 0, 0, 0⟩ 800).1.top = some 5 ∧
    (getTooltipStyle false 0 50 (.num 150) (.num 40) "w" overrideSample
      ⟨0, 100, 0, 0⟩ 800).1.top = some (50 - 40) ∧
    (getTooltipStyle false 0 50 (.num 150) (.pct "80%") "w" overrideSample
      ⟨0, 100, 0, 0⟩ 800).1.bottom = some (800 - 50) := by
  obtain ⟨h1, h2, h3, h4, h5, h6, h7, h8, h9, -, h11, -, -⟩ :=
    container_override_wins_except_assigned_position false 0 5 (.num 150)
      "w" overrideSample ⟨0, 0, 0, 0⟩ 800
  obtain ⟨-, -, -, -, -, -, -, -, -, k10, -, k12, k13⟩ :=
    container_override_wins_except_assigned_position false 0 50 (.num 150)
      "w" overrideSample ⟨0, 100, 0, 0⟩ 800
  exact ⟨h1 (.num 40) 1 rfl, h2 (.num 40) 2 rfl, h3 (.num 40) (.num 3) rfl,
    h4 (.num 40) (.num 4) rfl, h5 (.num 40) "red" rfl, h6 (.num 40) 6 rfl,
    h7 (.num 40) 7 rfl, h8 40 998 rfl, by norm_num,
    h9 (.pct "80%") 998 (by norm_num) rfl, by norm_num,
    k10 "80%" 999 (by norm_num) rfl, h11 (.num 40) (by norm_num),
    k12 40 (by norm_num), k13 "80%" (by norm_num)⟩

end RNTooltip
